import Mathlib

/-!
Verification of the data-ingestion core of the EC-research dashboard
(`src/main.py`): Unicode-normalized filename matching, per-school CSV and
spreadsheet loading, schema validation, record tagging, aggregation and
best-school selection.  Python strings are modelled as lists of Unicode
code points where normalization matters, and as Lean `String`s elsewhere;
pandas tables are lists of records; exceptions are explicit constructors.
-/

/-- Leading consonant (choseong) jamo range U+1100..U+1112. -/
def isHangulL (c : Nat) : Bool := 0x1100 ≤ c && c ≤ 0x1112

/-- Vowel (jungseong) jamo range U+1161..U+1175. -/
def isHangulV (c : Nat) : Bool := 0x1161 ≤ c && c ≤ 0x1175

/-- Trailing consonant (jongseong) jamo range U+11A8..U+11C2. -/
def isHangulT (c : Nat) : Bool := 0x11A8 ≤ c && c ≤ 0x11C2

/-- Precomposed LV Hangul syllable (no trailing consonant yet). -/
def isHangulLV (c : Nat) : Bool :=
  0xAC00 ≤ c && c ≤ 0xD7A3 && (c - 0xAC00) % 28 == 0

/-- Canonical Hangul composition pass of Unicode NFC (UAX #15), on code
points.  This models `unicodedata.normalize('NFC', s)` from
`src/main.py` for the strings the program handles (Hangul syllables,
conjoining jamo, and ASCII, all of which NFC either composes by this
algorithm or leaves unchanged). -/
def hangulNFCA (c1 : Nat) : List Nat → List Nat
  | [] => [c1]
  | c2 :: rest =>
    if isHangulL c1 && isHangulV c2 then
      hangulNFCA (0xAC00 + ((c1 - 0x1100) * 21 + (c2 - 0x1161)) * 28) rest
    else if isHangulLV c1 && isHangulT c2 then
      hangulNFCA (c1 + (c2 - 0x11A7)) rest
    else
      c1 :: hangulNFCA c2 rest

/-- Entry point of the composition pass. -/
def hangulNFC : List Nat → List Nat
  | [] => []
  | c :: rest => hangulNFCA c rest

/-- Code points of a Lean string (models Python's view of a `str`). -/
def codepoints (s : String) : List Nat := s.data.map Char.toNat

/-- `normalize_str` from `src/main.py`: NFC-normalize, here returning the
normalized code-point sequence used for comparisons. -/
def normalize_str (s : String) : List Nat := hangulNFC (codepoints s)

/-- `find_file_safe(base_dir, target_name)` from `src/main.py`: `none` if
the directory does not exist, otherwise the first file (in iteration
order) whose NFC-normalized name equals the NFC-normalized target. -/
def find_file_safe (base_dir : Option (List String)) (target_name : String) :
    Option String :=
  match base_dir with
  | none => none
  | some files => files.find? (fun p => normalize_str p == normalize_str target_name)

/-- Boolean substring test on code-point lists. -/
def containsSub (hay needle : List Nat) : Bool :=
  (List.range (hay.length + 1)).any (fun i => needle.isPrefixOf (hay.drop i))

/-- Modelled from the spec: the substring/fuzzy matching strategy of the
Filename Matcher, which is not part of `src/main.py` (src holds only the
exact-match variant of the repository's five ingestion variants).  After
NFC-normalizing both sides it accepts a file whose name contains the
logical key and contains the expected extension token; names starting
with the reserved marker `~$` are excluded from candidates. -/
def find_file_fuzzy (base_dir : Option (List String)) (key ext : String) :
    Option String :=
  match base_dir with
  | none => none
  | some files =>
    files.find? (fun p =>
      !([126, 36].isPrefixOf (codepoints p)) &&
      containsSub (normalize_str p) (normalize_str key) &&
      containsSub (normalize_str p) (normalize_str ext))

/-- One school's static configuration (`SCHOOL_CONFIG` values in
`src/main.py`): target EC and display color. -/
structure SchoolConf where
  ec : Rat
  color : String
deriving Repr, DecidableEq

/-- `SCHOOL_CONFIG` from `src/main.py`: the four schools in insertion
order with their target EC and color. -/
def SCHOOL_CONFIG : List (String × SchoolConf) :=
  [("송도고", ⟨1, "#1f77b4"⟩),
   ("하늘고", ⟨2, "#2ca02c"⟩),
   ("아라고", ⟨4, "#ff7f0e"⟩),
   ("동산고", ⟨8, "#d62728"⟩)]

/-- `SCHOOL_CONFIG[school]['ec']` (total: defaults to 0 for a key not in
the table; the loaders only ever look up the four configured keys). -/
def ec_of (school : String) : Rat :=
  match (SCHOOL_CONFIG.find? (fun p => p.1 == school)) with
  | some p => p.2.ec
  | none => 0

/-- A timestamp cell: the raw string from the CSV, the value produced by
the time conversion, or the missing-value marker (pandas `NaT`, which
`pd.to_datetime` would produce for a bad value under `errors='coerce'`). -/
inductive TimeCell where
  | raw (s : String)
  | conv (n : Nat)
  | missing
deriving Repr, DecidableEq

/-- One untagged row of an environmental CSV. -/
structure EnvRawRow where
  time : String
  temperature : Rat
  humidity : Rat
  ph : Rat
  ec : Rat
deriving Repr, DecidableEq

/-- One row of the unified environmental table: the CSV fields plus the
`school` and `target_ec` tags added by the loader. -/
structure EnvRow where
  time : TimeCell
  temperature : Rat
  humidity : Rat
  ph : Rat
  ec : Rat
  school : String
  target_ec : Rat
deriving Repr, DecidableEq

/-- A parsed environmental CSV: its header names (as they appear in the
file) and its rows. -/
structure CsvTable where
  headers : List String
  rows : List EnvRawRow
deriving Repr, DecidableEq

/-- The outcome of `pd.read_csv` on a file: an exception, or a table. -/
inductive CsvRead where
  | raiseErr (msg : String)
  | ok (t : CsvTable)
deriving Repr, DecidableEq

/-- One untagged row of a growth sheet.  Field names model the source
columns 개체번호, 잎 수(장), 지상부 길이(mm), 지하부길이(mm), 생중량(g). -/
structure GrowthRawRow where
  specimen_id : String
  leaf_count : Rat
  shoot_length_mm : Rat
  root_length_mm : Rat
  fresh_weight_g : Rat
deriving Repr, DecidableEq

/-- One row of the unified growth table, with the loader's tags. -/
structure GrowthRow where
  specimen_id : String
  leaf_count : Rat
  shoot_length_mm : Rat
  root_length_mm : Rat
  fresh_weight_g : Rat
  school : String
  target_ec : Rat
deriving Repr, DecidableEq

/-- The outcome of `pd.read_excel` on one sheet: an exception, or the
sheet's header names together with its rows. -/
inductive SheetRead where
  | raiseErr (msg : String)
  | ok (headers : List String) (rows : List GrowthRawRow)
deriving Repr, DecidableEq

/-- An opened spreadsheet (`pd.ExcelFile`): its sheets in file order,
each with the outcome of reading it. -/
structure ExcelData where
  sheets : List (String × SheetRead)
deriving Repr, DecidableEq

/-- The outcome of `pd.ExcelFile(path)`: an exception, or the workbook. -/
inductive ExcelRead where
  | raiseErr (msg : String)
  | ok (x : ExcelData)
deriving Repr, DecidableEq

/-- The data directory: its filenames in iteration order, and what
reading each file yields (files absent from the lists read as errors;
the loaders only read paths returned by the matcher). -/
structure DataDir where
  files : List String
  csvReads : List (String × CsvRead)
  excelReads : List (String × ExcelRead)
deriving Repr, DecidableEq

/-- Reading a CSV path from the directory. -/
def read_csv (d : DataDir) (p : String) : CsvRead :=
  match d.csvReads.find? (fun q => q.1 == p) with
  | some q => q.2
  | none => .raiseErr "read error"

/-- Opening a spreadsheet path from the directory. -/
def open_excel (d : DataDir) (p : String) : ExcelRead :=
  match d.excelReads.find? (fun q => q.1 == p) with
  | some q => q.2
  | none => .raiseErr "open error"

/-- A warning surfaced via `st.warning` during loading. -/
inductive Warning where
  | csvLoadFail (school : String) (msg : String)
  | excelLoadFail (msg : String)
deriving Repr, DecidableEq

/-- `csv_files` from `src/main.py`: school → expected CSV filename. -/
def csv_files : List (String × String) :=
  [("송도고", "송도고_환경데이터.csv"),
   ("하늘고", "하늘고_환경데이터.csv"),
   ("아라고", "아라고_환경데이터.csv"),
   ("동산고", "동산고_환경데이터.csv")]

/-- `required_cols` from `src/main.py`. -/
def required_cols : List String := ["time", "temperature", "humidity", "ph", "ec"]

/-- ASCII whitespace, as stripped by Python's `str.strip()`. -/
def isSpaceChar (c : Char) : Bool := c.toNat == 32 || (9 ≤ c.toNat && c.toNat ≤ 13)

/-- Lowercasing one character (`str.lower()`; the headers involved are
ASCII, for which Python's lowering is exactly this). -/
def lowerChar (c : Char) : Char :=
  if 65 ≤ c.toNat && c.toNat ≤ 90 then Char.ofNat (c.toNat + 32) else c

/-- Strip leading and trailing whitespace from a character list. -/
def stripChars (l : List Char) : List Char :=
  ((l.dropWhile isSpaceChar).reverse.dropWhile isSpaceChar).reverse

/-- Header normalization `c.strip().lower()` from `src/main.py`. -/
def norm_header (c : String) : String := String.mk ((stripChars c.data).map lowerChar)

/-- `all(c in df.columns for c in required_cols)` after normalizing the
table's headers. -/
def schema_ok (t : CsvTable) : Bool :=
  required_cols.all (fun c => (t.headers.map norm_header).contains c)

/-- Tagging one CSV row: `df['school'] = school; df['target_ec'] = ...`. -/
def tag_env (school : String) (r : EnvRawRow) : EnvRow :=
  ⟨.raw r.time, r.temperature, r.humidity, r.ph, r.ec, school, ec_of school⟩

/-- One iteration of the environmental loading loop in `load_data`
(`src/main.py` lines 80–95): the rows this school contributes and the
warnings it emits.  A missing file or a failed schema check contributes
nothing and emits nothing; only a read exception emits a warning. -/
def env_contrib (d : DataDir) (school filename : String) :
    List EnvRow × List Warning :=
  match find_file_safe (some d.files) filename with
  | none => ([], [])
  | some p =>
    match read_csv d p with
    | .raiseErr e => ([], [.csvLoadFail school e])
    | .ok t =>
      if schema_ok t then (t.rows.map (tag_env school), [])
      else ([], [])

/-- The environmental loading loop over `csv_files`, concatenating each
school's contribution in order (the per-school frames are appended to
`env_dfs` and concatenated by `pd.concat`). -/
def load_env_loop (d : DataDir) : List (String × String) → List EnvRow × List Warning
  | [] => ([], [])
  | (school, filename) :: rest =>
    let c := env_contrib d school filename
    let r := load_env_loop d rest
    (c.1 ++ r.1, c.2 ++ r.2)

/-- Whether a time cell still holding its raw string parses. -/
def cell_parses (parse : String → Option Nat) (c : TimeCell) : Bool :=
  match c with
  | .raw s => (parse s).isSome
  | .conv _ => true
  | .missing => true

/-- Converting one time cell once the whole column is known to parse. -/
def convert_cell (parse : String → Option Nat) (r : EnvRow) : EnvRow :=
  match r.time with
  | .raw s =>
    match parse s with
    | some n => { r with time := .conv n }
    | none => r
  | .conv _ => r
  | .missing => r

/-- `env_df_total['time'] = pd.to_datetime(env_df_total['time'])` inside
`try/except: pass` (`src/main.py` lines 98–103): `pd.to_datetime` raises
on the first unparseable value, so the column is converted only when
every value parses; otherwise the exception is swallowed and every row
keeps its raw value.  `parse` stands for the library's per-value
timestamp parser. -/
def to_datetime_col (parse : String → Option Nat) (rows : List EnvRow) :
    List EnvRow :=
  if rows.isEmpty then rows
  else if rows.all (fun r => cell_parses parse r.time) then
    rows.map (convert_cell parse)
  else rows

/-- Tagging one growth-sheet row. -/
def tag_growth (school : String) (r : GrowthRawRow) : GrowthRow :=
  ⟨r.specimen_id, r.leaf_count, r.shoot_length_mm, r.root_length_mm,
   r.fresh_weight_g, school, ec_of school⟩

/-- Python dict insertion (later keys overwrite earlier ones). -/
def dict_insert (m : List (List Nat × String)) (k : List Nat) (v : String) :
    List (List Nat × String) :=
  if m.any (fun p => p.1 == k) then
    m.map (fun p => if p.1 == k then (k, v) else p)
  else m ++ [(k, v)]

/-- `sheet_map = {normalize_str(s): s for s in xls.sheet_names}`. -/
def sheet_map (names : List String) : List (List Nat × String) :=
  names.foldl (fun m s => dict_insert m (normalize_str s) s) []

/-- Reading one sheet of an opened workbook by its real name. -/
def read_sheet (x : ExcelData) (real : String) : SheetRead :=
  match x.sheets.find? (fun q => q.1 == real) with
  | some q => q.2
  | none => .raiseErr "sheet read error"

/-- The growth loading loop over the configured schools (`src/main.py`
lines 115–124).  The whole loop runs inside one `try`: a read exception
on any sheet aborts the remaining iterations (frames appended so far are
kept) and emits one warning; a school without a matching normalized
sheet name is skipped silently.  No column validation is performed. -/
def growth_loop (x : ExcelData) : List String → List GrowthRow × List Warning
  | [] => ([], [])
  | school :: rest =>
    match (sheet_map (x.sheets.map Prod.fst)).find?
        (fun q => q.1 == normalize_str school) with
    | none => growth_loop x rest
    | some q =>
      match read_sheet x q.2 with
      | .raiseErr e => ([], [.excelLoadFail e])
      | .ok _ rows =>
        let r := growth_loop x rest
        (rows.map (tag_growth school) ++ r.1, r.2)

/-- The growth half of `load_data` (`src/main.py` lines 106–126). -/
def load_growth (d : DataDir) : List GrowthRow × List Warning :=
  match find_file_safe (some d.files) "4개교_생육결과데이터.xlsx" with
  | none => ([], [])
  | some p =>
    match open_excel d p with
    | .raiseErr e => ([], [.excelLoadFail e])
    | .ok x => growth_loop x (SCHOOL_CONFIG.map Prod.fst)

/-- The result of `load_data`: `(None, None)` after the directory-missing
`st.error`, or the two unified tables (with the warnings emitted). -/
inductive LoadResult where
  | dirMissing
  | tables (env : List EnvRow) (growth : List GrowthRow) (warnings : List Warning)
deriving Repr, DecidableEq

/-- `load_data` from `src/main.py`: directory check, environmental CSV
loop, time conversion, growth workbook loop. -/
def load_data (dir : Option DataDir) (parse : String → Option Nat) : LoadResult :=
  match dir with
  | none => .dirMissing
  | some d =>
    let e := load_env_loop d csv_files
    let env_total := to_datetime_col parse e.1
    let g := load_growth d
    .tables env_total g.1 (e.2 ++ g.2)

/-- The guard `if env_df.empty and growth_df.empty` at the top of
`main()` (`src/main.py` line 140): evaluating `.empty` on the `None`
returned for a missing directory raises `AttributeError`. -/
def main_empty_check (r : LoadResult) : Except String Bool :=
  match r with
  | .dirMissing => .error "AttributeError"
  | .tables env growth _ => .ok (env.isEmpty && growth.isEmpty)

/-- Whether the growth loop's iteration for this school hits a sheet-read
exception (thereby aborting the rest of the loop). -/
def school_sheet_aborts (x : ExcelData) (s : String) : Bool :=
  match (sheet_map (x.sheets.map Prod.fst)).find?
      (fun q => q.1 == normalize_str s) with
  | none => false
  | some q =>
    match read_sheet x q.2 with
    | .raiseErr _ => true
    | .ok _ _ => false

/-- The schools present in the growth table (`groupby('school')` group
keys; the grouping in `src/main.py` sorts keys, which does not affect
which groups exist or their means). -/
def schools_present (g : List GrowthRow) : List String :=
  (g.map (fun r => r.school)).dedup

/-- Mean of `생중량(g)` over one school's rows
(`growth_df.groupby('school')['생중량(g)'].mean()` for that group). -/
def group_fresh_mean (g : List GrowthRow) (s : String) : Rat :=
  let vals := (g.filter (fun r => r.school == s)).map (fun r => r.fresh_weight_g)
  vals.sum / (vals.length : Rat)

/-- The per-school mean series, one entry per school present. -/
def g_mean_list (g : List GrowthRow) : List (String × Rat) :=
  (schools_present g).map (fun s => (s, group_fresh_mean g s))

/-- An entry with maximal second component (what
`.sort_values(ascending=False)` followed by `.index[0]` selects). -/
def argmax_pair : List (String × Rat) → Option (String × Rat)
  | [] => none
  | p :: rest =>
    match argmax_pair rest with
    | none => some p
    | some q => if p.2 < q.2 then some q else some p

/-- The best-school designation of Tab 3 in `main()` (`src/main.py`
lines 306–316): guarded by `if growth_df.empty`, so no designation is
made on an empty table; otherwise the school with maximal mean fresh
weight. -/
def tab3_best (g : List GrowthRow) : Option String :=
  if g.isEmpty then none
  else (argmax_pair (g_mean_list g)).map Prod.fst

/-- A concrete stand-in for the library's per-value timestamp parser
(`pd.to_datetime` on one value): accepts non-empty decimal strings.  The
claims about timestamp handling concern the loader's control flow, which
is independent of which strings the library parser accepts; theorems
about it quantify over the parser, and this function instantiates it. -/
def parse_ts (s : String) : Option Nat :=
  if s.data.isEmpty then none
  else
    s.data.foldl
      (fun acc c =>
        match acc with
        | some n => if 48 ≤ c.toNat && c.toNat ≤ 57 then some (n * 10 + (c.toNat - 48)) else none
        | none => none)
      (some 0)

/-- NFD (decomposed) spelling of the filename 송도고_환경데이터.csv, as a
filesystem that stores decomposed Hangul would report it. -/
def nfdEnvName : String :=
  "\u1109\u1169\u11BC\u1103\u1169\u1100\u1169_\u1112\u116A\u11AB\u1100\u1167\u11BC\u1103\u1166\u110B\u1175\u1110\u1165.csv"

/-- The environmental header row as required. -/
def envHeaders : List String := ["time", "temperature", "humidity", "ph", "ec"]

/-- A well-formed environmental CSV row whose time field is the decimal
string for `n` (parseable by the stand-in timestamp parser). -/
def sampleEnvRow (n : Nat) : EnvRawRow := ⟨toString n, 20, 50, 6, 2⟩

/-- The corresponding unified-table row after tagging and successful
time conversion. -/
def convEnvRow (n : Nat) (school : String) : EnvRow :=
  ⟨.conv n, 20, 50, 6, 2, school, ec_of school⟩

/-- Directory in which 하늘고's environmental CSV has been deleted while
the other three schools' CSVs are present and valid; no workbook. -/
def C1dir : DataDir :=
  { files := ["송도고_환경데이터.csv", "아라고_환경데이터.csv", "동산고_환경데이터.csv"],
    csvReads :=
      [("송도고_환경데이터.csv", .ok ⟨envHeaders, [sampleEnvRow 1]⟩),
       ("아라고_환경데이터.csv", .ok ⟨envHeaders, [sampleEnvRow 2]⟩),
       ("동산고_환경데이터.csv", .ok ⟨envHeaders, [sampleEnvRow 3]⟩)],
    excelReads := [] }

/-- The rows the three remaining schools contribute in `C1dir`. -/
def C1expectedEnv : List EnvRow :=
  [convEnvRow 1 "송도고", convEnvRow 2 "아라고", convEnvRow 3 "동산고"]

/-- A workbook whose 하늘고 sheet raises on read while 송도고's sheet
reads fine (for the growth-loop abort behaviour). -/
def C1excelAbort : ExcelData :=
  ⟨[("송도고", .ok ["개체번호"] [⟨"S-01", 4, 90, 40, 10⟩]),
    ("하늘고", .raiseErr "corrupt sheet")]⟩

/-- An environmental CSV lacking the `ph` column but having every other
required column, with a data row. -/
def C5table : CsvTable :=
  ⟨["time", "temperature", "humidity", "ec"], [sampleEnvRow 1]⟩

/-- Directory holding only 송도고's CSV, which parses to `C5table`. -/
def C5dir : DataDir :=
  { files := ["송도고_환경데이터.csv"],
    csvReads := [("송도고_환경데이터.csv", .ok C5table)],
    excelReads := [] }

/-- A growth row in a sheet that lacks every required measurement
column. -/
def C6row : GrowthRawRow := ⟨"A-01", 5, 100, 50, 12⟩

/-- A workbook whose 송도고 sheet has only a 개체번호 header — none of
생중량(g), 잎 수(장), 지상부 길이(mm), 지하부길이(mm). -/
def C6excel : ExcelData := ⟨[("송도고", .ok ["개체번호"] [C6row])]⟩

/-- Directory holding only the growth workbook `C6excel`. -/
def C6dir : DataDir :=
  { files := ["4개교_생육결과데이터.xlsx"],
    csvReads := [],
    excelReads := [("4개교_생육결과데이터.xlsx", .ok C6excel)] }

/-- Environmental rows whose middle time value is unparseable. -/
def C7rows : List EnvRawRow :=
  [⟨"1", 20, 50, 6, 2⟩, ⟨"x", 21, 51, 6, 2⟩, ⟨"2", 22, 52, 6, 2⟩]

/-- Directory holding only 송도고's CSV with the `C7rows` data. -/
def C7dir : DataDir :=
  { files := ["송도고_환경데이터.csv"],
    csvReads := [("송도고_환경데이터.csv", .ok ⟨envHeaders, C7rows⟩)],
    excelReads := [] }

/-- A tagged growth row with the given fresh weight for a school. -/
def gRow (id : String) (w : Rat) (school : String) : GrowthRow :=
  ⟨id, 5, 100, 50, w, school, ec_of school⟩

/-- A unified growth table whose per-school mean fresh weights are
12.3, 18.7, 9.1 and 15.0. -/
def C8example : List GrowthRow :=
  [gRow "a" (123/10) "송도고", gRow "b" (187/10) "하늘고",
   gRow "c" (91/10) "아라고", gRow "d" 15 "동산고"]

/-- Directory with one valid environmental CSV and one growth sheet, for
exercising the tagging invariant on a concrete load. -/
def C9dir : DataDir :=
  { files := ["하늘고_환경데이터.csv", "4개교_생육결과데이터.xlsx"],
    csvReads := [("하늘고_환경데이터.csv", .ok ⟨envHeaders, [sampleEnvRow 1]⟩)],
    excelReads :=
      [("4개교_생육결과데이터.xlsx",
        .ok ⟨[("아라고", .ok ["개체번호"] [⟨"R-07", 3, 80, 30, 9⟩])]⟩)] }

/-- C4: exact-match strategy — whenever the directory contains a file
whose NFC-normalized name equals the NFC normalization of the target
name, `find_file_safe` returns a file path with that normalized name; in
particular an NFD-encoded lookup of an NFC-stored filename succeeds. -/
theorem C4_exact_normalized_match (files : List String) (target : String)
    (h : ∃ f ∈ files, normalize_str f = normalize_str target) :
    ∃ g, find_file_safe (some files) target = some g ∧
      normalize_str g = normalize_str target := by
  obtain ⟨f, hf, he⟩ := h
  have hs : (files.find? (fun p => normalize_str p == normalize_str target)).isSome := by
    rw [List.find?_isSome]
    exact ⟨f, hf, by simp [he]⟩
  obtain ⟨g, hg⟩ := Option.isSome_iff_exists.mp hs
  refine ⟨g, ?_, ?_⟩
  · simpa [find_file_safe] using hg
  · simpa using List.find?_some hg

/-- Witness for C4: a directory holding 송도고_환경데이터.csv in NFC,
looked up under the NFD spelling of the same name, yields a match. -/
theorem C4_witness :
    ∃ g, find_file_safe (some ["송도고_환경데이터.csv"]) nfdEnvName = some g ∧
      normalize_str g = normalize_str nfdEnvName :=
  C4_exact_normalized_match _ _ ⟨"송도고_환경데이터.csv", by decide, by decide⟩

/-- C10: deterministic first-match semantics — `find_file_safe` on an
existing directory returns the first file in iteration order whose
NFC-normalized name equals the normalized target (every earlier file
does not match), and returns `none` exactly when no filename matches. -/
theorem C10_first_match (files : List String) (target : String) :
    (∀ f, find_file_safe (some files) target = some f →
       normalize_str f = normalize_str target ∧
       ∃ l1 l2, files = l1 ++ f :: l2 ∧
         ∀ g ∈ l1, normalize_str g ≠ normalize_str target) ∧
    (find_file_safe (some files) target = none ↔
       ∀ f ∈ files, normalize_str f ≠ normalize_str target) := by
  constructor
  · intro f hf
    simp only [find_file_safe] at hf
    obtain ⟨hp, l1, l2, heq, hpre⟩ := List.find?_eq_some.mp hf
    refine ⟨by simpa using hp, l1, l2, heq, ?_⟩
    intro g hg
    have := hpre g hg
    simpa using this
  · simp [find_file_safe, List.find?_eq_none]

/-- Witness for C10: with two files that both normalize to the same
target, the first in iteration order is chosen. -/
theorem C10_witness :
    normalize_str nfdEnvName = normalize_str "송도고_환경데이터.csv" ∧
    ∃ l1 l2, [nfdEnvName, "송도고_환경데이터.csv"] = l1 ++ nfdEnvName :: l2 ∧
      ∀ g ∈ l1, normalize_str g ≠ normalize_str "송도고_환경데이터.csv" :=
  (C10_first_match [nfdEnvName, "송도고_환경데이터.csv"] "송도고_환경데이터.csv").1
    nfdEnvName (by decide)

/-- C3: substring/fuzzy strategy (modelled from the spec, absent from
`src/main.py`) — any file it returns contains the NFC-normalized key and
the NFC-normalized extension token in its normalized name; on the
directory 송도고.csv.csv, 하늘고_data.csv a lookup of 송도고 with .csv
returns the first file and a lookup of 아라고 returns not-found. -/
theorem C3_fuzzy_substring_match :
    (∀ files key ext f, find_file_fuzzy (some files) key ext = some f →
       containsSub (normalize_str f) (normalize_str key) = true ∧
       containsSub (normalize_str f) (normalize_str ext) = true) ∧
    find_file_fuzzy (some ["송도고.csv.csv", "하늘고_data.csv"]) "송도고" ".csv" =
      some "송도고.csv.csv" ∧
    find_file_fuzzy (some ["송도고.csv.csv", "하늘고_data.csv"]) "아라고" ".csv" = none := by
  refine ⟨?_, by decide, by decide⟩
  intro files key ext f hf
  simp only [find_file_fuzzy] at hf
  have h := List.find?_some hf
  simp only [Bool.and_eq_true] at h
  exact ⟨h.1.2, h.2⟩

/-- Witness for C3: the matched file 송도고.csv.csv indeed contains both
the key and the extension token after normalization. -/
theorem C3_witness :
    containsSub (normalize_str "송도고.csv.csv") (normalize_str "송도고") = true ∧
    containsSub (normalize_str "송도고.csv.csv") (normalize_str ".csv") = true :=
  C3_fuzzy_substring_match.1 ["송도고.csv.csv", "하늘고_data.csv"] "송도고" ".csv"
    "송도고.csv.csv" (by decide)

/-- C2 (code bug): with the data directory absent, `load_data` surfaces
the directory-level error but returns `(None, None)` — not empty tables —
and `main()`'s first use of the result, `env_df.empty`, raises
`AttributeError`, so the downstream consumer does crash. -/
theorem C2_dir_missing_returns_none :
    load_data none parse_ts = .dirMissing ∧
    (∀ env growth ws, load_data none parse_ts ≠ .tables env growth ws) ∧
    main_empty_check (load_data none parse_ts) = .error "AttributeError" := by
  refine ⟨rfl, ?_, rfl⟩
  intro env growth ws h
  simp [load_data] at h

/-- Counterexample for C1: with 하늘고's CSV deleted and the other three
schools' CSVs valid, the unified environmental table holds exactly the
remaining three schools' rows — but the warning list is empty, so no
warning naming 하늘고 is recorded, contrary to the claim. -/
theorem C1_counterexample :
    load_data (some C1dir) parse_ts = .tables C1expectedEnv [] [] ∧
    (∀ r ∈ C1expectedEnv, r.school ≠ "하늘고") ∧ C1expectedEnv ≠ [] := by decide

/-- C1 (amended): a school whose environmental CSV is absent is loaded
exactly as if it were not configured — the other schools' rows and
warnings are unaffected and no warning is emitted for it; on the growth
side, a read failure on one school's sheet keeps the sheets loaded
before it, emits one warning, and prevents loading the sheets after
it. -/
theorem C1_partial_failure_isolation :
    (∀ d school filename, (school, filename) ∈ csv_files →
       find_file_safe (some d.files) filename = none →
       load_env_loop d csv_files =
         load_env_loop d (csv_files.filter (fun sf => !(sf.1 == school)))) ∧
    (∀ x pre school rest, (∀ s ∈ pre, school_sheet_aborts x s = false) →
       school_sheet_aborts x school = true →
       ∃ e, growth_loop x (pre ++ school :: rest) =
         ((growth_loop x pre).1, [Warning.excelLoadFail e])) := by
  constructor
  · intro d school filename hmem habs
    have hc : env_contrib d school filename = ([], []) := by
      simp [env_contrib, habs]
    simp only [csv_files, List.mem_cons, List.not_mem_nil, or_false, Prod.mk.injEq] at hmem
    rcases hmem with ⟨h1, h2⟩ | ⟨h1, h2⟩ | ⟨h1, h2⟩ | ⟨h1, h2⟩ <;>
      subst h1 <;> subst h2 <;>
      simp [load_env_loop, csv_files, hc]
  · intro x pre school rest hpre habort
    induction pre with
    | nil =>
      simp only [List.nil_append]
      cases hfind : (sheet_map (x.sheets.map Prod.fst)).find?
          (fun q => q.1 == normalize_str school) with
      | none => simp [school_sheet_aborts, hfind] at habort
      | some q =>
        cases hread : read_sheet x q.2 with
        | raiseErr e =>
          exact ⟨e, by simp [growth_loop, hfind, hread]⟩
        | ok h rows => simp [school_sheet_aborts, hfind, hread] at habort
    | cons s pre' ih =>
      have hs : school_sheet_aborts x s = false := hpre s (List.mem_cons_self s pre')
      have hpre' : ∀ t ∈ pre', school_sheet_aborts x t = false :=
        fun t ht => hpre t (List.mem_cons_of_mem s ht)
      obtain ⟨e, he⟩ := ih hpre'
      cases hfind : (sheet_map (x.sheets.map Prod.fst)).find?
          (fun q => q.1 == normalize_str s) with
      | none =>
        refine ⟨e, ?_⟩
        simp only [List.cons_append, growth_loop, hfind]
        simpa [growth_loop, hfind] using he
      | some q =>
        cases hread : read_sheet x q.2 with
        | raiseErr e2 => simp [school_sheet_aborts, hfind, hread] at hs
        | ok h rows =>
          refine ⟨e, ?_⟩
          simp only [List.cons_append, growth_loop, hfind, hread, List.append_eq]
          rw [he]

/-- Witness for C1: the isolation equation at the concrete directory
missing 하늘고's CSV, and the abort behaviour at a workbook whose 하늘고
sheet raises after 송도고's sheet loaded. -/
theorem C1_witness :
    load_env_loop C1dir csv_files =
      load_env_loop C1dir (csv_files.filter (fun sf => !(sf.1 == "하늘고"))) ∧
    ∃ e, growth_loop C1excelAbort (["송도고"] ++ "하늘고" :: ["아라고", "동산고"]) =
      ((growth_loop C1excelAbort ["송도고"]).1, [Warning.excelLoadFail e]) :=
  ⟨C1_partial_failure_isolation.1 C1dir "하늘고" "하늘고_환경데이터.csv"
     (by decide) (by decide),
   C1_partial_failure_isolation.2 C1excelAbort ["송도고"] "하늘고" ["아라고", "동산고"]
     (by decide) (by decide)⟩

/-- Counterexample for C5: a CSV for 송도고 missing only the `ph` column
is rejected entirely (zero rows contributed, as the claim says), but the
warning list is empty — no warning naming the missing columns is
surfaced, contrary to the claim. -/
theorem C5_counterexample :
    load_data (some C5dir) parse_ts = .tables [] [] [] ∧
    read_csv C5dir "송도고_환경데이터.csv" = .ok C5table ∧
    C5table.rows ≠ [] ∧ schema_ok C5table = false := by decide

/-- C5 (amended): a school CSV whose normalized headers are missing any
required column among time, temperature, humidity, ph, ec contributes
zero rows to the unified environmental table — silently, with no
warning. -/
theorem C5_schema_rejection (d : DataDir) (school filename p : String) (t : CsvTable)
    (hfind : find_file_safe (some d.files) filename = some p)
    (hread : read_csv d p = .ok t)
    (hbad : schema_ok t = false) :
    env_contrib d school filename = ([], []) := by
  simp [env_contrib, hfind, hread, hbad]

/-- Witness for C5: the `ph`-less CSV of `C5dir` contributes nothing. -/
theorem C5_witness :
    env_contrib C5dir "송도고" "송도고_환경데이터.csv" = ([], []) :=
  C5_schema_rejection C5dir "송도고" "송도고_환경데이터.csv" "송도고_환경데이터.csv"
    C5table (by decide) (by decide) (by decide)

/-- Counterexample for C6: a growth sheet for 송도고 whose only header is
개체번호 — lacking 생중량(g), 잎 수(장), 지상부 길이(mm) and
지하부길이(mm) — is loaded in full (its row appears tagged in the
unified growth table) instead of being rejected as the claim states. -/
theorem C6_counterexample :
    load_data (some C6dir) parse_ts = .tables [] [tag_growth "송도고" C6row] [] ∧
    read_sheet C6excel "송도고" = .ok ["개체번호"] [C6row] ∧
    ¬ "생중량(g)" ∈ ["개체번호"] := by decide

/-- C6 (amended): the growth loader performs no header normalization and
no required-column validation — a sheet whose NFC-normalized name
matches a school contributes all its rows, whatever its headers are. -/
theorem C6_no_growth_validation (x : ExcelData) (school : String)
    (rest : List String) (q : List Nat × String)
    (headers : List String) (rows : List GrowthRawRow)
    (hfind : (sheet_map (x.sheets.map Prod.fst)).find?
      (fun r => r.1 == normalize_str school) = some q)
    (hread : read_sheet x q.2 = .ok headers rows) :
    growth_loop x (school :: rest) =
      (rows.map (tag_growth school) ++ (growth_loop x rest).1,
       (growth_loop x rest).2) := by
  simp [growth_loop, hfind, hread]

/-- Witness for C6: the header-less sheet of `C6excel` contributes its
row. -/
theorem C6_witness :
    growth_loop C6excel ("송도고" :: []) =
      ([C6row].map (tag_growth "송도고") ++ (growth_loop C6excel []).1,
       (growth_loop C6excel []).2) :=
  C6_no_growth_validation C6excel "송도고" [] (normalize_str "송도고", "송도고")
    ["개체번호"] [C6row] (by decide) (by decide)

/-- Counterexample for C7: with rows whose time values are 1, x, 2 (the
middle one unparseable), every row of the loaded table keeps its raw
time string — the bad value does not become a missing-value marker, and
the conversion of the two parseable rows is aborted, contrary to the
claim. -/
theorem C7_counterexample :
    load_data (some C7dir) parse_ts =
      .tables (C7rows.map (tag_env "송도고")) [] [] ∧
    (tag_env "송도고" ⟨"x", 21, 51, 6, 2⟩).time = .raw "x" ∧
    (parse_ts "1").isSome = true ∧ (parse_ts "x").isSome = false := by decide

/-- C7 (amended): the time conversion is all-or-nothing — one
unparseable timestamp anywhere in the unified table leaves every row's
time value unconverted (no row is dropped and no exception escapes),
and only when every value parses is the column converted. -/
theorem C7_no_permissive_timestamps (parse : String → Option Nat) (rows : List EnvRow) :
    ((∃ r ∈ rows, cell_parses parse r.time = false) →
       to_datetime_col parse rows = rows) ∧
    (rows ≠ [] → (∀ r ∈ rows, cell_parses parse r.time = true) →
       to_datetime_col parse rows = rows.map (convert_cell parse)) := by
  constructor
  · rintro ⟨r, hr, hbad⟩
    have : ¬ rows.all (fun s => cell_parses parse s.time) := by
      simp only [List.all_eq_true, not_forall]
      exact ⟨r, hr, by simp [hbad]⟩
    simp [to_datetime_col, this]
  · intro hne hall
    have h1 : rows.isEmpty = false := by
      cases rows with
      | nil => exact absurd rfl hne
      | cons a l => rfl
    have h2 : rows.all (fun s => cell_parses parse s.time) = true := by
      simp only [List.all_eq_true]
      exact hall
    simp [to_datetime_col, h1, h2]

/-- Witness for C7: the mixed-parseability table stays unconverted, and a
fully parseable singleton is converted. -/
theorem C7_witness :
    to_datetime_col parse_ts (C7rows.map (tag_env "송도고")) =
      C7rows.map (tag_env "송도고") ∧
    to_datetime_col parse_ts [tag_env "송도고" (sampleEnvRow 1)] =
      [convert_cell parse_ts (tag_env "송도고" (sampleEnvRow 1))] :=
  ⟨(C7_no_permissive_timestamps parse_ts (C7rows.map (tag_env "송도고"))).1
     ⟨tag_env "송도고" ⟨"x", 21, 51, 6, 2⟩, by decide, by decide⟩,
   (C7_no_permissive_timestamps parse_ts [tag_env "송도고" (sampleEnvRow 1)]).2
     (by decide) (by decide)⟩

/-- An argmax over a nonempty list exists. -/
theorem argmax_pair_ne_none (l : List (String × Rat)) (h : l ≠ []) :
    ∃ p, argmax_pair l = some p := by
  cases l with
  | nil => exact absurd rfl h
  | cons a t =>
    simp only [argmax_pair]
    cases argmax_pair t with
    | none => exact ⟨a, rfl⟩
    | some q =>
      by_cases hlt : a.2 < q.2
      · exact ⟨q, by simp [hlt]⟩
      · exact ⟨a, by simp [hlt]⟩

/-- The selected entry belongs to the list and its value is maximal. -/
theorem argmax_pair_spec (l : List (String × Rat)) (p : String × Rat)
    (h : argmax_pair l = some p) : p ∈ l ∧ ∀ q ∈ l, q.2 ≤ p.2 := by
  induction l generalizing p with
  | nil => simp [argmax_pair] at h
  | cons a t ih =>
    simp only [argmax_pair] at h
    cases hrec : argmax_pair t with
    | none =>
      rw [hrec] at h
      cases h
      have ht : t = [] := by
        cases t with
        | nil => rfl
        | cons b u =>
          obtain ⟨r, hr⟩ := argmax_pair_ne_none (b :: u) (by simp)
          simp [hr] at hrec
      subst ht
      exact ⟨List.mem_singleton.mpr rfl, by simp⟩
    | some q =>
      rw [hrec] at h
      obtain ⟨hqmem, hqmax⟩ := ih q hrec
      by_cases hlt : a.2 < q.2
      · simp only [hlt, if_true, Option.some.injEq] at h
        subst h
        refine ⟨List.mem_cons_of_mem a hqmem, ?_⟩
        intro r hr
        rcases List.mem_cons.mp hr with h1 | h1
        · exact h1 ▸ le_of_lt hlt
        · exact hqmax r h1
      · simp only [hlt, if_false, Option.some.injEq] at h
        subst h
        refine ⟨List.mem_cons_self _ _, ?_⟩
        intro r hr
        rcases List.mem_cons.mp hr with h1 | h1
        · exact h1 ▸ le_refl _
        · exact le_trans (hqmax r h1) (not_lt.mp hlt)

/-- C8: best-school selection — on a non-empty unified growth table the
designated school exists, has at least one growth record, and its mean
fresh weight is maximal over all schools with records; on an empty
table no school is designated and the consumer's guard returns none. -/
theorem C8_best_school_selection (g : List GrowthRow) :
    (g ≠ [] → ∃ s, tab3_best g = some s ∧
       (∃ r ∈ g, r.school = s) ∧
       ∀ s2 ∈ schools_present g, group_fresh_mean g s2 ≤ group_fresh_mean g s) ∧
    (g = [] → tab3_best g = none) := by
  constructor
  · intro hne
    have hempty : g.isEmpty = false := by
      cases g with
      | nil => exact absurd rfl hne
      | cons a t => rfl
    have hsp : schools_present g ≠ [] := by
      cases g with
      | nil => exact absurd rfl hne
      | cons a t => simp [schools_present]
    have hgl : g_mean_list g ≠ [] := by
      simp only [g_mean_list]
      exact fun hc => hsp (List.map_eq_nil_iff.mp hc)
    obtain ⟨p, hp⟩ := argmax_pair_ne_none _ hgl
    obtain ⟨hmem, hmax⟩ := argmax_pair_spec _ _ hp
    obtain ⟨s, hs, heq⟩ := List.mem_map.mp hmem
    refine ⟨s, ?_, ?_, ?_⟩
    · simp [tab3_best, hempty, hp, ← heq]
    · have : s ∈ (g.map (fun r => r.school)).dedup := by
        simpa [schools_present] using hs
      obtain ⟨r, hr, hre⟩ := List.mem_map.mp (List.mem_dedup.mp this)
      exact ⟨r, hr, hre⟩
    · intro s2 hs2
      have h2 : (s2, group_fresh_mean g s2) ∈ g_mean_list g :=
        List.mem_map.mpr ⟨s2, hs2, rfl⟩
      have := hmax _ h2
      rw [← heq] at this
      simpa using this
  · intro he
    subst he
    rfl

/-- Witness for C8: on a table whose four schools have mean fresh
weights 12.3, 18.7, 9.1 and 15.0 the designation exists with maximal
mean. -/
theorem C8_witness :
    ∃ s, tab3_best C8example = some s ∧
      (∃ r ∈ C8example, r.school = s) ∧
      ∀ s2 ∈ schools_present C8example,
        group_fresh_mean C8example s2 ≤ group_fresh_mean C8example s :=
  (C8_best_school_selection C8example).1 (by decide)

/-- Rows contributed by one school's CSV carry that school's tags. -/
theorem env_contrib_school (d : DataDir) (school filename : String) :
    ∀ r ∈ (env_contrib d school filename).1,
      r.school = school ∧ r.target_ec = ec_of school := by
  intro r hr
  cases hfind : find_file_safe (some d.files) filename with
  | none => simp [env_contrib, hfind] at hr
  | some p =>
    cases hread : read_csv d p with
    | raiseErr e => simp [env_contrib, hfind, hread] at hr
    | ok t =>
      by_cases hok : schema_ok t
      · simp only [env_contrib, hfind, hread, if_pos hok] at hr
        obtain ⟨r0, _, hre⟩ := List.mem_map.mp hr
        subst hre
        exact ⟨rfl, rfl⟩
      · simp [env_contrib, hfind, hread, hok] at hr

/-- Every row of the environmental loop comes from some configured pair
and carries its tags. -/
theorem load_env_loop_school (d : DataDir) (l : List (String × String)) :
    ∀ r ∈ (load_env_loop d l).1,
      ∃ s ∈ l.map Prod.fst, r.school = s ∧ r.target_ec = ec_of s := by
  induction l with
  | nil => intro r hr; exact absurd hr (List.not_mem_nil r)
  | cons a rest ih =>
    intro r hr
    simp only [load_env_loop] at hr
    rcases List.mem_append.mp hr with h1 | h1
    · obtain ⟨hs, ht⟩ := env_contrib_school d a.1 a.2 r h1
      exact ⟨a.1, List.mem_map.mpr ⟨a, List.mem_cons_self a rest, rfl⟩, hs, ht⟩
    · obtain ⟨s, hsl, hs, ht⟩ := ih r h1
      obtain ⟨b, hb, hbe⟩ := List.mem_map.mp hsl
      exact ⟨s, List.mem_map.mpr ⟨b, List.mem_cons_of_mem a hb, hbe⟩, hs, ht⟩

/-- Every row of the growth loop carries the tags of a school in the
iterated list. -/
theorem growth_loop_school (x : ExcelData) (l : List String) :
    ∀ r ∈ (growth_loop x l).1,
      ∃ s ∈ l, r.school = s ∧ r.target_ec = ec_of s := by
  induction l with
  | nil => intro r hr; exact absurd hr (List.not_mem_nil r)
  | cons school rest ih =>
    intro r hr
    cases hfind : (sheet_map (x.sheets.map Prod.fst)).find?
        (fun q => q.1 == normalize_str school) with
    | none =>
      simp only [growth_loop, hfind] at hr
      obtain ⟨s, hsl, hs, ht⟩ := ih r hr
      exact ⟨s, List.mem_cons_of_mem school hsl, hs, ht⟩
    | some q =>
      cases hread : read_sheet x q.2 with
      | raiseErr e => simp [growth_loop, hfind, hread] at hr
      | ok h rows =>
        simp only [growth_loop, hfind, hread] at hr
        rcases List.mem_append.mp hr with h1 | h1
        · obtain ⟨r0, _, hre⟩ := List.mem_map.mp h1
          subst hre
          exact ⟨school, List.mem_cons_self _ _, rfl, rfl⟩
        · obtain ⟨s, hsl, hs, ht⟩ := ih r h1
          exact ⟨s, List.mem_cons_of_mem school hsl, hs, ht⟩

/-- Time conversion does not change the school or target-EC tags. -/
theorem convert_cell_school (parse : String → Option Nat) (r : EnvRow) :
    (convert_cell parse r).school = r.school ∧
    (convert_cell parse r).target_ec = r.target_ec := by
  obtain ⟨t, a, b, c, e, sch, tec⟩ := r
  cases t with
  | raw s =>
    simp only [convert_cell]
    cases parse s with
    | some n => exact ⟨rfl, rfl⟩
    | none => exact ⟨rfl, rfl⟩
  | conv n => exact ⟨rfl, rfl⟩
  | missing => exact ⟨rfl, rfl⟩

/-- Each converted row inherits its tags from a pre-conversion row. -/
theorem to_datetime_col_school (parse : String → Option Nat) (rows : List EnvRow) :
    ∀ r ∈ to_datetime_col parse rows,
      ∃ r0 ∈ rows, r.school = r0.school ∧ r.target_ec = r0.target_ec := by
  intro r hr
  unfold to_datetime_col at hr
  by_cases h1 : rows.isEmpty
  · rw [if_pos h1] at hr
    exact ⟨r, hr, rfl, rfl⟩
  · rw [if_neg h1] at hr
    by_cases h2 : rows.all (fun s => cell_parses parse s.time)
    · rw [if_pos h2] at hr
      obtain ⟨r0, hr0, hre⟩ := List.mem_map.mp hr
      obtain ⟨hs, ht⟩ := convert_cell_school parse r0
      exact ⟨r0, hr0, hre ▸ hs, hre ▸ ht⟩
    · rw [if_neg h2] at hr
      exact ⟨r, hr, rfl, rfl⟩

/-- Every row of the loaded growth table is tagged with a configured
school. -/
theorem load_growth_school (d : DataDir) :
    ∀ r ∈ (load_growth d).1,
      ∃ s ∈ SCHOOL_CONFIG.map Prod.fst, r.school = s ∧ r.target_ec = ec_of s := by
  intro r hr
  cases hfind : find_file_safe (some d.files) "4개교_생육결과데이터.xlsx" with
  | none => simp [load_growth, hfind] at hr
  | some p =>
    cases hopen : open_excel d p with
    | raiseErr e => simp [load_growth, hfind, hopen] at hr
    | ok x =>
      simp only [load_growth, hfind, hopen] at hr
      exact growth_loop_school x (SCHOOL_CONFIG.map Prod.fst) r hr

/-- C9: record-tagging invariant — after any load, every row of both
unified tables has its school field among the four configured names and
its target_ec equal to that school's configured EC value. -/
theorem C9_record_tagging (d : DataDir) (parse : String → Option Nat)
    (env : List EnvRow) (growth : List GrowthRow) (ws : List Warning)
    (h : load_data (some d) parse = .tables env growth ws) :
    (∀ r ∈ env, r.school ∈ SCHOOL_CONFIG.map Prod.fst ∧
       r.target_ec = ec_of r.school) ∧
    (∀ r ∈ growth, r.school ∈ SCHOOL_CONFIG.map Prod.fst ∧
       r.target_ec = ec_of r.school) := by
  simp only [load_data, LoadResult.tables.injEq] at h
  obtain ⟨he, hg, _⟩ := h
  constructor
  · intro r hr
    rw [← he] at hr
    obtain ⟨r0, hr0, hs, ht⟩ := to_datetime_col_school parse _ r hr
    obtain ⟨s, hsl, hs0, ht0⟩ := load_env_loop_school d csv_files r0 hr0
    have hcs : csv_files.map Prod.fst = SCHOOL_CONFIG.map Prod.fst := by decide
    rw [hcs] at hsl
    refine ⟨?_, ?_⟩
    · rw [hs, hs0]; exact hsl
    · rw [ht, ht0, hs, hs0]
  · intro r hr
    rw [← hg] at hr
    obtain ⟨s, hsl, hs, ht⟩ := load_growth_school d r hr
    refine ⟨?_, ?_⟩
    · rw [hs]; exact hsl
    · rw [ht, hs]

/-- Witness for C9: the invariant at a concrete load producing one
environmental row for 하늘고 and one growth row for 아라고. -/
theorem C9_witness :
    (∀ r ∈ [convEnvRow 1 "하늘고"],
       r.school ∈ SCHOOL_CONFIG.map Prod.fst ∧ r.target_ec = ec_of r.school) ∧
    (∀ r ∈ [tag_growth "아라고" ⟨"R-07", 3, 80, 30, 9⟩],
       r.school ∈ SCHOOL_CONFIG.map Prod.fst ∧ r.target_ec = ec_of r.school) :=
  C9_record_tagging C9dir parse_ts [convEnvRow 1 "하늘고"]
    [tag_growth "아라고" ⟨"R-07", 3, 80, 30, 9⟩] [] (by decide)
